import Mathlib

/-!
Shallow embedding of the AVR/Arduino hardware-simulation core
(`src/tools/simulator/avr_simulator.py`, class `AVRSimulator`).

The GUI layer (tkinter widgets, matplotlib, status bar) is presentation
only and carries no peripheral state of its own; the embedding models the
hardware state (`pins`, `timers`, `serial`, `simulation_time`) and the
operations the interpreter applies to it (`arduino_pinMode`,
`arduino_digitalWrite`, `arduino_analogWrite`, `arduino_serial_begin`,
`serial_output`, `arduino_delay`), plus the scheduler-level functions
`execute_setup`, `simulation_loop` iteration and `reset_simulation`.

Python floats (`simulation_time`, `last_change`, timer `frequency` and
`duty_cycle`) are modelled as exact rationals; the quantities involved
(ms/1000 sums) are small decimal fractions, and no claim under study
depends on binary floating-point rounding.  Threading and real
wall-clock sleeping have no state effect; `arduino_delay` returns the
requested real-sleep duration as a second component so that the
speed-multiplier's (non-)influence is visible in the model.
-/

/-- `PinMode` enum of the source. -/
inductive PinMode
  | INPUT
  | OUTPUT
  | INPUT_PULLUP
  deriving DecidableEq, Repr

/-- `PinState` enum of the source. -/
inductive PinState
  | LOW
  | HIGH
  deriving DecidableEq, Repr

/-- `GPIOPin` dataclass: GPIO pin simulation. -/
structure GPIOPin where
  number : Nat
  mode : PinMode
  state : PinState
  analog_value : Int
  pwm_value : Int
  pwm_enabled : Bool
  last_change : ℚ
  deriving DecidableEq, Repr

/-- `TimerConfig` dataclass: timer configuration and state. -/
structure TimerConfig where
  timer_id : Nat
  prescaler : Nat
  compare_value : Int
  counter_value : Int
  overflow_count : Int
  pwm_mode : Bool
  frequency : ℚ
  duty_cycle : ℚ
  deriving DecidableEq, Repr

/-- `SerialData` dataclass: UART/serial communication data. -/
structure SerialData where
  tx_buffer : List String
  rx_buffer : List String
  baud_rate : Nat
  tx_count : Nat
  rx_count : Nat
  deriving DecidableEq, Repr

/-- The hardware state owned by `AVRSimulator`: the `pins` and `timers`
dicts, the `serial` data and `simulation_time`.  The dicts have fixed
key sets (pins 0–19, timers 0–2), so they are modelled as total
functions guarded by the domain predicates `pinKnown` / `timerKnown`. -/
structure SimState where
  pins : Nat → GPIOPin
  timers : Nat → TimerConfig
  serial : SerialData
  simulation_time : ℚ

/-- Membership in the `pins` dict: `init_gpio_pins` creates exactly the
keys 0–19 (digital 0–13, analog A0–A5 as 14–19) and no pin is ever added
or removed afterwards. -/
abbrev pinKnown (pin : Nat) : Prop := pin < 20

/-- Membership in the `timers` dict: `init_timers` creates keys 0, 1, 2. -/
abbrev timerKnown (i : Nat) : Prop := i < 3

/-- One pin of `init_gpio_pins`: dataclass defaults (`INPUT`, `LOW`,
`analog_value = 0`, PWM off), analog pins 14–19 get `analog_value = 512`,
and the special configurations set pin 13 (built-in LED) and pin 1 (TX)
to `OUTPUT` (pin 0 is set to `INPUT`, its default). -/
def initPin (n : Nat) : GPIOPin :=
  let base : GPIOPin :=
    { number := n, mode := PinMode.INPUT, state := PinState.LOW,
      analog_value := if 14 ≤ n then 512 else 0,
      pwm_value := 0, pwm_enabled := false, last_change := 0 }
  if n = 13 ∨ n = 1 then { base with mode := PinMode.OUTPUT } else base

/-- One timer of `init_timers`: `TimerConfig(timer_id=i)` with dataclass
defaults. -/
def initTimer (i : Nat) : TimerConfig :=
  { timer_id := i, prescaler := 1, compare_value := 0, counter_value := 0,
    overflow_count := 0, pwm_mode := false, frequency := 0, duty_cycle := 0 }

/-- `SerialData()` dataclass defaults. -/
def initSerial : SerialData :=
  { tx_buffer := [], rx_buffer := [], baud_rate := 9600,
    tx_count := 0, rx_count := 0 }

/-- The state built by `AVRSimulator.__init__`. -/
def initState : SimState :=
  { pins := initPin, timers := initTimer, serial := initSerial,
    simulation_time := 0 }

/-- Replace the entry of one pin in the `pins` map. -/
def updatePin (s : SimState) (pin : Nat) (f : GPIOPin → GPIOPin) : SimState :=
  { s with pins := fun m => if m = pin then f (s.pins pin) else s.pins m }

/-- `arduino_pinMode(pin, mode)`: returns immediately when `pin` is not a
key of `pins`; otherwise sets `mode` according to the mode string
(`"OUTPUT"`, `"INPUT"`, `"INPUT_PULLUP"`; any other string changes
nothing). -/
def arduino_pinMode (s : SimState) (pin : Nat) (mode : String) : SimState :=
  if pinKnown pin then
    if mode = "OUTPUT" then
      updatePin s pin (fun p => { p with mode := PinMode.OUTPUT })
    else if mode = "INPUT" then
      updatePin s pin (fun p => { p with mode := PinMode.INPUT })
    else if mode = "INPUT_PULLUP" then
      updatePin s pin (fun p => { p with mode := PinMode.INPUT_PULLUP })
    else s
  else s

/-- `arduino_digitalWrite(pin, state)`: returns immediately when `pin` is
not a key of `pins` or the pin's mode is not `OUTPUT`; otherwise stores
`HIGH` when the state string is `"HIGH"` (else `LOW`) and stamps
`last_change` with the current `simulation_time`. -/
def arduino_digitalWrite (s : SimState) (pin : Nat) (state : String) : SimState :=
  if pinKnown pin ∧ (s.pins pin).mode = PinMode.OUTPUT then
    let pin_state := if state = "HIGH" then PinState.HIGH else PinState.LOW
    updatePin s pin
      (fun p => { p with state := pin_state, last_change := s.simulation_time })
  else s

/-- `arduino_analogWrite(pin, value)`: returns immediately when `pin` is
not a key of `pins`; otherwise stores `max(0, min(255, value))` into
`pwm_value` and sets `pwm_enabled` (no mode check). -/
def arduino_analogWrite (s : SimState) (pin : Nat) (value : Int) : SimState :=
  if pinKnown pin then
    updatePin s pin
      (fun p => { p with pwm_value := max 0 (min 255 value), pwm_enabled := true })
  else s

/-- `serial_output(text)`: appends `text` to `tx_buffer` and adds
`len(text)` to `tx_count`, unconditionally (the GUI echo has no state
effect). -/
def serial_output (s : SimState) (text : String) : SimState :=
  { s with serial := { s.serial with tx_buffer := s.serial.tx_buffer ++ [text], tx_count := s.serial.tx_count + text.length } }

/-- The f-string emitted by `arduino_serial_begin`. -/
def serialStartedMessage (baud : Nat) : String :=
  "Serial communication started at " ++ toString baud ++ " baud\n"

/-- `arduino_serial_begin(baud)`: sets `baud_rate` and emits the startup
message through `serial_output`. -/
def arduino_serial_begin (s : SimState) (baud : Nat) : SimState :=
  serial_output
    { s with serial := { s.serial with baud_rate := baud } }
    (serialStartedMessage baud)

/-- `arduino_delay(ms)`: computes `delay_seconds = ms / 1000` and
`actual_delay = delay_seconds / speed_multiplier`, sleeps `actual_delay`
real seconds when it exceeds 0.001 (returned as the second component,
with no state effect), and adds `delay_seconds` to `simulation_time`. -/
def arduino_delay (s : SimState) (ms : Nat) (speed_multiplier : ℚ) : SimState × ℚ :=
  let delay_seconds : ℚ := (ms : ℚ) / 1000
  let actual_delay : ℚ := delay_seconds / speed_multiplier
  ({ s with simulation_time := s.simulation_time + delay_seconds },
   if 1 / 1000 < actual_delay then actual_delay else 0)

/-- The typed operations of the interpreter's `OperationSequence`
(`execute_line` dispatches on these shapes). -/
inductive Operation
  | configurePin (pin : Nat) (mode : PinMode)
  | writeDigital (pin : Nat) (level : PinState)
  | writePwm (pin : Nat) (value : Int)
  | openSerial (baud : Nat)
  | emitSerial (text : String)
  | wait (ms : Nat)
  deriving DecidableEq, Repr

/-- The mode string that `execute_line` extracts for a `pinMode` call. -/
def modeString : PinMode → String
  | PinMode.INPUT => "INPUT"
  | PinMode.OUTPUT => "OUTPUT"
  | PinMode.INPUT_PULLUP => "INPUT_PULLUP"

/-- The level string that `execute_line` extracts for a `digitalWrite`
call. -/
def levelString : PinState → String
  | PinState.LOW => "LOW"
  | PinState.HIGH => "HIGH"

/-- `execute_line` for one operation: dispatch to the corresponding
`arduino_*` implementation. -/
def execOp (speed_multiplier : ℚ) (s : SimState) : Operation → SimState
  | Operation.configurePin pin mode => arduino_pinMode s pin (modeString mode)
  | Operation.writeDigital pin level => arduino_digitalWrite s pin (levelString level)
  | Operation.writePwm pin value => arduino_analogWrite s pin value
  | Operation.openSerial baud => arduino_serial_begin s baud
  | Operation.emitSerial text => serial_output s text
  | Operation.wait ms => (arduino_delay s ms speed_multiplier).1

/-- `parse_and_execute_code` over an extracted operation list: operations
run strictly in order; each is wrapped so that a failure never aborts the
remaining ones (in the model every `execOp` is total). -/
def execSeq (speed_multiplier : ℚ) (s : SimState) (ops : List Operation) : SimState :=
  ops.foldl (execOp speed_multiplier) s

/-- `execute_setup`: runs the setup operations then emits
`"Arduino setup completed!\n"`. -/
def execute_setup (speed_multiplier : ℚ) (setupOps : List Operation)
    (s : SimState) : SimState :=
  serial_output (execSeq speed_multiplier s setupOps) "Arduino setup completed!\n"

/-- One iteration of `simulation_loop`: `execute_loop` (the loop
operations) followed by `simulation_time += 0.001` (1 ms per loop
iteration); the speed-multiplier sleep at the end of the iteration has
no state effect. -/
def loopIteration (speed_multiplier : ℚ) (loopOps : List Operation)
    (s : SimState) : SimState :=
  let s1 := execSeq speed_multiplier s loopOps
  { s1 with simulation_time := s1.simulation_time + 1 / 1000 }

/-- `n` iterations of `simulation_loop`'s while-body. -/
def runIterations (speed_multiplier : ℚ) (loopOps : List Operation) :
    Nat → SimState → SimState
  | 0, s => s
  | n + 1, s => runIterations speed_multiplier loopOps n
      (loopIteration speed_multiplier loopOps s)

/-- `reset_simulation` on one pin: `state = LOW`,
`analog_value = 512 if pin.number >= 14 else 0`, PWM cleared,
`last_change = 0`; `mode` is not touched. -/
def resetPin (p : GPIOPin) : GPIOPin :=
  { p with state := PinState.LOW,
           analog_value := if 14 ≤ p.number then 512 else 0,
           pwm_value := 0, pwm_enabled := false, last_change := 0 }

/-- `reset_simulation` on one timer: counters, frequency and duty cycle
zeroed; `prescaler`, `compare_value` and `pwm_mode` untouched. -/
def resetTimer (t : TimerConfig) : TimerConfig :=
  { t with counter_value := 0, overflow_count := 0,
           frequency := 0, duty_cycle := 0 }

/-- `reset_simulation`: resets every pin in the dict and every timer,
clears both serial buffers and byte counts (leaving `baud_rate`), and
zeroes `simulation_time`.  The GUI clearing has no hardware-state
effect. -/
def reset_simulation (s : SimState) : SimState :=
  { s with
      pins := fun n => if pinKnown n then resetPin (s.pins n) else s.pins n,
      timers := fun i => if timerKnown i then resetTimer (s.timers i) else s.timers i,
      serial := { s.serial with tx_buffer := [], rx_buffer := [], tx_count := 0, rx_count := 0 },
      simulation_time := 0 }

/-- The pin identity an operation references, if any. -/
def opPin : Operation → Option Nat
  | Operation.configurePin pin _ => some pin
  | Operation.writeDigital pin _ => some pin
  | Operation.writePwm pin _ => some pin
  | _ => none

/-- Setup sequence of Scenario A. -/
def setupSeqA : List Operation := [Operation.configurePin 13 PinMode.OUTPUT]

/-- Loop body of Scenario A: blink pin 13 with two one-second waits. -/
def loopSeqA : List Operation :=
  [Operation.writeDigital 13 PinState.HIGH, Operation.wait 1000,
   Operation.writeDigital 13 PinState.LOW, Operation.wait 1000]

/-- Scenario A run: from reset state, setup once, then two loop
iterations, at the default speed setting 1x. -/
def scenarioA : SimState :=
  runIterations 1 loopSeqA 2 (execute_setup 1 setupSeqA (reset_simulation initState))

/-- Scenario C run: from reset state, `Serial.begin(9600)` then two
emissions of `"hi"` (at the default speed setting 1x, which no serial
operation consults). -/
def scenarioC : SimState :=
  execSeq 1 (reset_simulation initState)
    [Operation.openSerial 9600, Operation.emitSerial "hi", Operation.emitSerial "hi"]

/-- The pin keys of a well-formed registry hold pins whose stored
`number` equals their key, as `init_gpio_pins` constructs them. -/
abbrev pinsWellNumbered (s : SimState) : Prop :=
  ∀ n, n < 20 → (s.pins n).number = n

/-- The conclusion of the (amended) reset claim: after `reset_simulation`
every pin is `LOW` with PWM cleared and `analog_value` 512 on the
analog-capable pins 14–19 but 0 on the digital pins 0–13, every timer's
counters are zero, the serial logs and byte counts are cleared, and
`simulation_time` is zero. -/
def resetRestoresDefaults (s : SimState) : Prop :=
  (∀ n, n < 20 →
      ((reset_simulation s).pins n).state = PinState.LOW ∧
      ((reset_simulation s).pins n).pwm_enabled = false ∧
      ((reset_simulation s).pins n).pwm_value = 0 ∧
      ((reset_simulation s).pins n).analog_value = (if 14 ≤ n then 512 else 0)) ∧
  (∀ i, i < 3 →
      ((reset_simulation s).timers i).counter_value = 0 ∧
      ((reset_simulation s).timers i).overflow_count = 0) ∧
  (reset_simulation s).serial.tx_buffer = [] ∧
  (reset_simulation s).serial.rx_buffer = [] ∧
  (reset_simulation s).serial.tx_count = 0 ∧
  (reset_simulation s).serial.rx_count = 0 ∧
  (reset_simulation s).simulation_time = 0

/-- Claim C1, counterexample: on pin 2, which is configured `INPUT` in the
initial state, a PWM write of 100 changes `pwm_value` (the source's
`arduino_analogWrite` checks only that the pin exists, never its mode),
so a PWM write while `mode != Output` is not a no-op on `pwmDutyValue`. -/
theorem C1_counterexample :
    (initState.pins 2).mode ≠ PinMode.OUTPUT ∧
    ((arduino_analogWrite initState 2 100).pins 2).pwm_value ≠
      (initState.pins 2).pwm_value := by
  decide

/-- Claim C1 (amended): for every pin and every digital write issued while
that pin's mode is not `OUTPUT`, the write is a silent no-op — the whole
simulator state, in particular the pin's `logicState` and
`pwmDutyValue`, is unchanged.  (PWM writes, by contrast, update
`pwm_value` on any known pin regardless of mode.) -/
theorem C1_theorem (s : SimState) (pin : Nat) (level : String)
    (h : (s.pins pin).mode ≠ PinMode.OUTPUT) :
    arduino_digitalWrite s pin level = s := by
  unfold arduino_digitalWrite
  rw [if_neg]
  intro hc
  exact h hc.2

/-- Witness for C1: `WriteDigital(2, High)` on pin 2, configured `Input`
in the initial state, leaves the state (hence pin 2's `logicState`,
which is `Low`) unchanged. -/
theorem C1_theorem_witness :
    (initState.pins 2).mode ≠ PinMode.OUTPUT ∧
    arduino_digitalWrite initState 2 "HIGH" = initState :=
  ⟨by decide, C1_theorem initState 2 "HIGH" (by decide)⟩

/-- Claim C2, counterexample: after the Scenario A run (setup
`ConfigurePin(13, Output)`, then two loop iterations of
`WriteDigital(13, High)`, `Wait(1000)`, `WriteDigital(13, Low)`,
`Wait(1000)`), `simulation_time` is not 4.0 — `simulation_loop` adds an
extra 0.001 s per loop iteration on top of the delays. -/
theorem C2_counterexample : scenarioA.simulation_time ≠ 4 := by
  norm_num [scenarioA, runIterations, loopIteration, execute_setup, execSeq,
    execOp, arduino_pinMode, arduino_digitalWrite, arduino_delay, serial_output,
    updatePin, reset_simulation, initState, initPin, initSerial, setupSeqA,
    loopSeqA, modeString, levelString, resetPin, pinKnown]

/-- Claim C2 (amended): the Scenario A run leaves `simulation_time` at
exactly 4.002 s (four 1 s delays plus the 1 ms that `simulation_loop`
adds per iteration) and pin 13's `logicState` at `Low`. -/
theorem C2_theorem :
    scenarioA.simulation_time = 4002 / 1000 ∧
    (scenarioA.pins 13).state = PinState.LOW := by
  constructor
  · norm_num [scenarioA, runIterations, loopIteration, execute_setup, execSeq,
      execOp, arduino_pinMode, arduino_digitalWrite, arduino_delay, serial_output,
      updatePin, reset_simulation, initState, initPin, initSerial, setupSeqA,
      loopSeqA, modeString, levelString, resetPin, pinKnown]
  · decide

/-- Claim C3: one `Wait(ms)` adds exactly `ms / 1000` to
`simulation_time`, for every positive speed multiplier, and the resulting
state does not depend on the speed multiplier at all (it only scales the
requested real sleep, the second component of `arduino_delay`). -/
theorem C3_theorem (s : SimState) (ms : Nat) (speed speed2 : ℚ)
    (_h : 0 < speed) (_h2 : 0 < speed2) :
    ((arduino_delay s ms speed).1).simulation_time
        = s.simulation_time + (ms : ℚ) / 1000 ∧
    (arduino_delay s ms speed).1 = (arduino_delay s ms speed2).1 :=
  ⟨rfl, rfl⟩

/-- Witness for C3: `Wait(500)` at speed 2x advances the initial state's
`simulation_time` by 500/1000, and yields the same state as at speed 1x. -/
theorem C3_theorem_witness :
    (0 : ℚ) < 2 ∧ (0 : ℚ) < 1 ∧
    (((arduino_delay initState 500 2).1).simulation_time
        = initState.simulation_time + (500 : ℚ) / 1000 ∧
     (arduino_delay initState 500 2).1 = (arduino_delay initState 500 1).1) :=
  ⟨by norm_num, by norm_num,
   C3_theorem initState 500 2 1 (by norm_num) (by norm_num)⟩

/-- Claim C4, counterexample: from the reset state, with the channel-open
operation never executed, `serial_output("hi")` still changes
`tx_buffer` — the source keeps no channel-open flag and appends
unconditionally, so an emission before `Serial.begin` is not a no-op. -/
theorem C4_counterexample :
    (serial_output (reset_simulation initState) "hi").serial.tx_buffer ≠
      (reset_simulation initState).serial.tx_buffer := by
  decide

/-- Claim C4 (amended): `EmitSerial(text)` always appends `text` to
`transmitLog` and adds `text`'s length to `transmitByteCount`, whether or
not the channel-open operation has been executed (the source has no
channel-open gate; `Serial.begin` only sets `baud_rate` and itself emits
a startup line). -/
theorem C4_theorem (s : SimState) (text : String) :
    (serial_output s text).serial.tx_buffer = s.serial.tx_buffer ++ [text] ∧
    (serial_output s text).serial.tx_count = s.serial.tx_count + text.length :=
  ⟨rfl, rfl⟩

/-- Claim C5, counterexample: after `OpenSerial(9600)` and two
`EmitSerial("hi")` from the reset state, the transmit log is not
`["hi", "hi"]` with 4 bytes — `arduino_serial_begin` itself emits the
42-byte startup message into the log first. -/
theorem C5_counterexample :
    ¬ (scenarioC.serial.tx_buffer = ["hi", "hi"] ∧
       scenarioC.serial.tx_count = 4) := by
  decide

/-- Claim C5 (amended): the Scenario C run leaves `transmitLog` equal to
the three-element sequence consisting of the `Serial.begin` startup
message followed by `"hi"`, `"hi"`, and `transmitByteCount` 46
(42 bytes of startup message plus 2 + 2). -/
theorem C5_theorem :
    scenarioC.serial.tx_buffer = [serialStartedMessage 9600, "hi", "hi"] ∧
    scenarioC.serial.tx_count = 46 := by
  decide

/-- Claim C6, counterexample: after `reset_simulation` from the initial
state, the digital pin 0 has `analog_value` 0, not the mid-scale 512 —
the source resets `analog_value` to 512 only for pins numbered 14 and
above. -/
theorem C6_counterexample :
    ((reset_simulation initState).pins 0).analog_value ≠ 512 := by
  decide

/-- Claim C6 (amended): for every prior state whose pins carry their own
key as `number`, `reset_simulation` leaves every pin `LOW` with PWM
disabled and duty 0 and `analog_value` 512 on the analog-capable pins
14–19 (0 on the digital pins 0–13), zeroes every timer's counter and
overflow count, empties the serial logs and byte counts, and zeroes
`simulation_time`. -/
theorem C6_theorem (s : SimState) (hwf : pinsWellNumbered s) :
    resetRestoresDefaults s := by
  refine ⟨?_, ?_, rfl, rfl, rfl, rfl, rfl⟩
  · intro n hn
    have hk : pinKnown n := hn
    simp [reset_simulation, resetPin, hk, hwf n hn]
  · intro i hi
    have hk : timerKnown i := hi
    simp [reset_simulation, resetTimer, hk]

/-- Witness for C6: the initial state is well-numbered and resets to the
described defaults. -/
theorem C6_theorem_witness :
    pinsWellNumbered initState ∧ resetRestoresDefaults initState :=
  ⟨by decide, C6_theorem initState (by decide)⟩

/-- Claim C7: a PWM write of any integer `v` to a known pin stores a
duty value in [0, 255]; values above 255 store 255 and negative values
store 0. -/
theorem C7_theorem (s : SimState) (pin : Nat) (v : Int) (h : pinKnown pin) :
    (0 ≤ ((arduino_analogWrite s pin v).pins pin).pwm_value ∧
     ((arduino_analogWrite s pin v).pins pin).pwm_value ≤ 255) ∧
    (255 < v → ((arduino_analogWrite s pin v).pins pin).pwm_value = 255) ∧
    (v < 0 → ((arduino_analogWrite s pin v).pins pin).pwm_value = 0) := by
  have hval : ((arduino_analogWrite s pin v).pins pin).pwm_value = max 0 (min 255 v) := by
    simp [arduino_analogWrite, updatePin, h]
  rw [hval]
  refine ⟨⟨?_, ?_⟩, ?_, ?_⟩ <;> omega

/-- Witness for C7: writing duty 300 to pin 9 of the initial state stores
a value in range, namely 255. -/
theorem C7_theorem_witness :
    pinKnown 9 ∧
    ((0 ≤ ((arduino_analogWrite initState 9 300).pins 9).pwm_value ∧
      ((arduino_analogWrite initState 9 300).pins 9).pwm_value ≤ 255) ∧
     (255 < (300 : Int) →
        ((arduino_analogWrite initState 9 300).pins 9).pwm_value = 255) ∧
     ((300 : Int) < 0 →
        ((arduino_analogWrite initState 9 300).pins 9).pwm_value = 0)) :=
  ⟨by decide, C7_theorem initState 9 300 (by decide)⟩

/-- Claim C8: an operation that references a pin identity outside the
registry is a no-op on the state (each of `arduino_pinMode`,
`arduino_digitalWrite`, `arduino_analogWrite` returns immediately for an
unknown key), and executing a sequence containing it produces the same
state as the sequence with that operation removed — every remaining
operation still executes and the run never aborts. -/
theorem C8_theorem (speed : ℚ) (s : SimState) (pre post : List Operation)
    (op : Operation) (p : Nat) (hp : opPin op = some p) (hk : ¬ pinKnown p) :
    (∀ t : SimState, execOp speed t op = t) ∧
    execSeq speed s (pre ++ op :: post) = execSeq speed s (pre ++ post) := by
  have hnoop : ∀ t : SimState, execOp speed t op = t := by
    intro t
    cases op with
    | configurePin q m =>
        simp only [opPin, Option.some.injEq] at hp
        subst hp
        simp [execOp, arduino_pinMode, hk]
    | writeDigital q l =>
        simp only [opPin, Option.some.injEq] at hp
        subst hp
        simp [execOp, arduino_digitalWrite, hk]
    | writePwm q v =>
        simp only [opPin, Option.some.injEq] at hp
        subst hp
        simp [execOp, arduino_analogWrite, hk]
    | openSerial b => simp [opPin] at hp
    | emitSerial t2 => simp [opPin] at hp
    | wait ms => simp [opPin] at hp
  refine ⟨hnoop, ?_⟩
  unfold execSeq
  rw [List.foldl_append, List.foldl_append, List.foldl_cons, hnoop]

/-- Witness for C8: a `WriteDigital` to the unknown pin 25 placed between
two valid operations leaves the run identical to the run without it. -/
theorem C8_theorem_witness :
    opPin (Operation.writeDigital 25 PinState.HIGH) = some 25 ∧
    ¬ pinKnown 25 ∧
    ((∀ t : SimState, execOp 1 t (Operation.writeDigital 25 PinState.HIGH) = t) ∧
     execSeq 1 initState
        ([Operation.configurePin 13 PinMode.OUTPUT] ++
          Operation.writeDigital 25 PinState.HIGH ::
            [Operation.writeDigital 13 PinState.HIGH]) =
       execSeq 1 initState
        ([Operation.configurePin 13 PinMode.OUTPUT] ++
          [Operation.writeDigital 13 PinState.HIGH])) :=
  ⟨by decide, by decide,
   C8_theorem 1 initState [Operation.configurePin 13 PinMode.OUTPUT]
     [Operation.writeDigital 13 PinState.HIGH]
     (Operation.writeDigital 25 PinState.HIGH) 25 (by decide) (by decide)⟩

/-- Claim C10: `reset_simulation` never changes any pin's mode — for
every prior state and every pin key, the mode after reset equals the
mode before, so a pin configured `Output` stays `Output`. -/
theorem C10_theorem (s : SimState) (n : Nat) :
    ((reset_simulation s).pins n).mode = (s.pins n).mode := by
  by_cases h : pinKnown n <;> simp [reset_simulation, resetPin, h]
